import Mathlib

/-!
Verification of the attendance-register application core
(helpers.js, excel.js, supabase.js, supabase-schema.sql),
shallowly embedded in Lean 4.

Numbers: JS timestamps are modelled as integer milliseconds; divisions
that JS performs on doubles are modelled exactly over the rationals
(for the integer millisecond magnitudes involved the double results
agree with the exact rational values).  Strings keep the literal
values of the source.  Geolocation fields (lat, lng) are floating
point and irrelevant to every property below, so the row embeddings
omit them.
-/

/-- JS Math.round: nearest integer, ties rounding toward positive infinity,
that is floor (x + 1/2). -/
def jsRound (q : ℚ) : ℤ := ⌊q + 1/2⌋

/-- Result record of helpers.getScanStatus: status is the string
"present" or "late", minutesLate an integer number of minutes. -/
structure ScanStatusResult where
  status : String
  minutesLate : ℤ
deriving Repr, DecidableEq

/-- helpers.getScanStatus, embedded over the millisecond timeline:
scanMs is the scan instant, startMs the session date+start-time instant
(the JS Date parsing of the two strings is external; the body works on
the difference).  Source: diff = (scanTime - start) / 60000;
status = diff <= 10 ? present : late;
minutesLate = Math.max(0, Math.round(diff)). -/
def getScanStatus (scanMs startMs : ℤ) : ScanStatusResult :=
  let diff : ℚ := ((scanMs - startMs : ℤ) : ℚ) / 60000
  { status := if diff ≤ 10 then "present" else "late"
    minutesLate := max 0 (jsRound diff) }

/-- helpers.pct: total === 0 ? 0 : Math.round((attended / total) * 100).
Callers pass attended = present + late. -/
def pct (attended total : ℕ) : ℤ :=
  if total = 0 then 0 else jsRound (((attended : ℚ) / (total : ℚ)) * 100)

/-- Result record of helpers.attendanceStatus: a label and a colour. -/
structure StatusBadge where
  label : String
  color : String
deriving Repr, DecidableEq

/-- helpers.attendanceStatus: p >= 80 Good Standing, p >= 60 At Risk,
otherwise Critical. -/
def attendanceStatus (p : ℚ) : StatusBadge :=
  if p ≥ 80 then { label := "Good Standing", color := "#00D68F" }
  else if p ≥ 60 then { label := "At Risk", color := "#FFB800" }
  else { label := "Critical", color := "#FF4D6D" }

/-- Row of the students table (supabase-schema.sql): id is the primary
key, student_no is unique. -/
structure Student where
  id : String
  student_no : String
  surname_initials : String
deriving Repr, DecidableEq

/-- Row of the enrolments table: primary key (student_id, course_id). -/
structure Enrolment where
  student_id : String
  course_id : String
deriving Repr, DecidableEq

/-- Row of the sessions table (status is the string "active" or
"closed"; lat/lng omitted). -/
structure Session where
  id : String
  course_id : String
  lecturer_id : String
  date : String
  start_time : String
  room : String
  status : String
deriving Repr, DecidableEq

/-- Row of the scans table: unique (session_id, student_no); scanned_at
is the insertion timestamp in milliseconds (timestamptz default now()). -/
structure Scan where
  id : ℕ
  session_id : String
  student_no : String
  surname_initials : String
  status : String
  minutes_late : ℤ
  scanned_at : ℕ
deriving Repr, DecidableEq

/-- The relational store, restricted to the tables the claims touch. -/
structure Store where
  students : List Student
  enrolments : List Enrolment
  sessions : List Session
  scans : List Scan
deriving Repr, DecidableEq

/-- The scans table already holds a row for (session_id, student_no):
the condition under which the unique (session_id, student_no)
constraint rejects an insert with Postgres error code 23505. -/
def scanConflict (rows : List Scan) (sid sno : String) : Bool :=
  rows.any (fun r => r.session_id == sid && r.student_no == sno)

/-- supabase.recordScan: a plain insert into scans; the store enforces
unique (session_id, student_no) and rejects a duplicate with code
23505, which the JS handle helper rethrows to the caller. -/
def recordScan (db : Store) (s : Scan) : Except String (Scan × Store) :=
  if scanConflict db.scans s.session_id s.student_no then .error "23505"
  else .ok (s, { db with scans := db.scans ++ [s] })

/-- supabase.getSession: select the session row by id (maybeSingle)
together with its embedded scans.  The select applies no ordering to
the embedded scans, so they come back in store order. -/
def getSession (db : Store) (sid : String) : Option (Session × List Scan) :=
  (db.sessions.find? (fun s => s.id == sid)).map
    (fun s => (s, db.scans.filter (fun r => r.session_id == sid)))

/-- Insert a scan into a list that is sorted by scanned_at descending,
keeping it sorted: the comparison step of the ORDER BY of
supabase.getScansForSession. -/
def insertScanDesc (r : Scan) : List Scan → List Scan
  | [] => [r]
  | x :: xs => if x.scanned_at < r.scanned_at then r :: x :: xs else x :: insertScanDesc r xs

/-- Sort scans by scanned_at descending (the ORDER BY scanned_at
DESC that supabase.getScansForSession requests from the store). -/
def sortScansDesc (l : List Scan) : List Scan := l.foldr insertScanDesc []

/-- supabase.getScansForSession: all scans of the session, ordered by
scanned_at descending. -/
def getScansForSession (db : Store) (sid : String) : List Scan :=
  sortScansDesc (db.scans.filter (fun r => r.session_id == sid))

/-- supabase.closeSession: update sessions set status = closed where
id = sessionId.  An update matching zero rows is still a success, so
the operation is total. -/
def closeSession (db : Store) (sid : String) : Store :=
  { db with sessions :=
      db.sessions.map (fun s => if s.id == sid then { s with status := "closed" } else s) }

/-- supabase.createSession: insert a session row with status active;
the primary key on id rejects a duplicate id with code 23505. -/
def createSession (db : Store) (s : Session) : Except String (Session × Store) :=
  if db.sessions.any (fun t => t.id == s.id) then .error "23505"
  else
    let act := { s with status := "active" }
    .ok (act, { db with sessions := db.sessions ++ [act] })

/-- supabase.getStudentsForCourse: the students joined through the
enrolments of the course. -/
def getStudentsForCourse (db : Store) (cid : String) : List Student :=
  (db.enrolments.filter (fun e => e.course_id == cid)).filterMap
    (fun e => db.students.find? (fun st => st.id == e.student_id))

/-- supabase.upsertStudentAndEnrol: upsert the student on conflict
student_no (ignoreDuplicates false, so an existing row is updated with
every supplied column), read the row back to get the real id, then
upsert the enrolment with ignoreDuplicates true (an existing enrolment
is left alone).  Returns the student record the JS function returns. -/
def upsertStudentAndEnrol (db : Store) (studentNo surnameInitials courseId : String) :
    Student × Store :=
  let studentId := "S_" ++ studentNo
  let row : Student := { id := studentId, student_no := studentNo,
                         surname_initials := surnameInitials }
  let students1 :=
    if db.students.any (fun st => st.student_no == studentNo)
    then db.students.map (fun st => if st.student_no == studentNo then row else st)
    else db.students ++ [row]
  let db1 := { db with students := students1 }
  let realId := ((db1.students.find? (fun st => st.student_no == studentNo)).map
    (fun st => st.id)).getD studentId
  let db2 :=
    if db1.enrolments.any (fun e => e.student_id == realId && e.course_id == courseId)
    then db1
    else { db1 with enrolments :=
            db1.enrolments ++ [{ student_id := realId, course_id := courseId }] }
  ({ id := realId, student_no := studentNo, surname_initials := surnameInitials }, db2)

/-- Per-student per-course counters returned by
helpers.studentCourseStats. -/
structure Stats where
  total : ℕ
  present : ℕ
  late : ℕ
  absent : ℕ
deriving Repr, DecidableEq

/-- The loop body shared by helpers.studentCourseStats and the export
data rows: look for the student's scan in the session; none counts
absent, status late counts late, anything else counts present.  The
accumulator is (present, late, absent). -/
def statsStep (studentNo : String) (acc : ℕ × ℕ × ℕ) (s : Session × List Scan) : ℕ × ℕ × ℕ :=
  match s.2.find? (fun sc => sc.student_no == studentNo) with
  | none => (acc.1, acc.2.1, acc.2.2 + 1)
  | some sc =>
    if sc.status == "late" then (acc.1, acc.2.1 + 1, acc.2.2)
    else (acc.1 + 1, acc.2.1, acc.2.2)

/-- helpers.studentCourseStats: filter the sessions of the course,
then fold the per-session classification.  Sessions come with their
embedded scans, as getSessions returns them. -/
def studentCourseStats (studentNo courseId : String)
    (sessions : List (Session × List Scan)) : Stats :=
  let cs := sessions.filter (fun s => s.1.course_id == courseId)
  let r := cs.foldl (statsStep studentNo) (0, 0, 0)
  { total := cs.length, present := r.1, late := r.2.1, absent := r.2.2 }

/-- One data row of excel.exportAttendanceExcel, restricted to the
computed counters and flags: per-session fold identical to
studentCourseStats, then attPct, the status label and the at-risk
flag exactly as the source computes them. -/
structure ExportRow where
  present : ℕ
  late : ℕ
  absent : ℕ
  total : ℕ
  attPct : ℤ
  status : String
  atRisk : String
deriving Repr, DecidableEq

/-- excel.exportAttendanceExcel, per-student row computation:
counts over the course sessions, attPct = total === 0 ? 0 :
Math.round(((present + late) / total) * 100), status by the 80/60
thresholds, atRisk = attPct < 80 ? YES : No. -/
def exportStudentRow (courseSessions : List (Session × List Scan))
    (studentNo : String) : ExportRow :=
  let r := courseSessions.foldl (statsStep studentNo) (0, 0, 0)
  let total := courseSessions.length
  let attPct : ℤ :=
    if total = 0 then 0 else jsRound ((((r.1 + r.2.1 : ℕ) : ℚ) / (total : ℚ)) * 100)
  { present := r.1, late := r.2.1, absent := r.2.2, total := total, attPct := attPct
    status :=
      if attPct ≥ 80 then "Good Standing" else if attPct ≥ 60 then "At Risk" else "Critical"
    atRisk := if attPct < 80 then "YES — INTERVENTION NEEDED" else "No" }

/-- Outcome of a student check-in attempt in StudentScanView: the
distinct terminal view states and error messages of the component. -/
inductive ScanOutcome where
  | noSession : ScanOutcome
  | alreadyLocal : Scan → ScanOutcome
  | success : Scan → ScanOutcome
  | errEmpty : ScanOutcome
  | errDuplicate : ScanOutcome
  | errGeneric : ScanOutcome
deriving Repr, DecidableEq

/-- JS String.prototype.trim: strip leading and trailing whitespace
(embedded over the character list so that it evaluates). -/
def trimString (s : String) : String :=
  String.mk (((s.data.dropWhile Char.isWhitespace).reverse.dropWhile
    Char.isWhitespace).reverse)

/-- StudentScanView.handleScan: trim the input; empty input errors;
a scan for the student found in the scans the view loaded returns that
record as the already-recorded outcome; otherwise classify with
getScanStatus (nowMs against the parsed session start startMs), look
the name up in the roster with the JS falsy fallback to the student
number, and insert; a 23505 rejection from the store becomes the
specific already-scanned message, any other store error the generic
failure message. -/
def handleScan (view : Session × List Scan) (db : Store) (rawStudentNo : String)
    (nowMs startMs : ℤ) (newScanId : ℕ) : ScanOutcome × Store :=
  let sNo := trimString rawStudentNo
  if sNo = "" then (ScanOutcome.errEmpty, db)
  else
    match view.2.find? (fun sc => sc.student_no == sNo) with
    | some existing => (ScanOutcome.alreadyLocal existing, db)
    | none =>
      let st := getScanStatus nowMs startMs
      let roster := getStudentsForCourse db view.1.course_id
      let name :=
        match roster.find? (fun s => s.student_no == sNo) with
        | some stu => if stu.surname_initials = "" then sNo else stu.surname_initials
        | none => sNo
      let scan : Scan := { id := newScanId, session_id := view.1.id, student_no := sNo,
                           surname_initials := name, status := st.status,
                           minutes_late := st.minutesLate, scanned_at := nowMs.toNat }
      match recordScan db scan with
      | .ok (s, db2) => (ScanOutcome.success s, db2)
      | .error e =>
        if e = "23505" then (ScanOutcome.errDuplicate, db) else (ScanOutcome.errGeneric, db)

/-- StudentScanView session-load effect: a missing session id, a
session the store does not have, or a session whose status is not
active all land in the no_session view state (modelled as none);
otherwise the view holds the session with its embedded scans. -/
def loadStep (db : Store) (sessionId : Option String) : Option (Session × List Scan) :=
  match sessionId with
  | none => none
  | some sid =>
    match getSession db sid with
    | none => none
    | some (s, scs) => if s.status == "active" then some (s, scs) else none

/-- A full check-in attempt through the shared link: load the session
state, then run handleScan against it; a failed load is the
no-active-session outcome. -/
def checkInAttempt (db : Store) (sessionId : Option String) (rawStudentNo : String)
    (nowMs startMs : ℤ) (newScanId : ℕ) : ScanOutcome × Store :=
  match loadStep db sessionId with
  | none => (ScanOutcome.noSession, db)
  | some view => handleScan view db rawStudentNo nowMs startMs newScanId

/-- The store-mutating operations of the data layer, for invariants
quantified over every operation. -/
inductive StoreOp where
  | close (sid : String) : StoreOp
  | create (s : Session) : StoreOp
  | record (s : Scan) : StoreOp
  | upsert (studentNo surnameInitials courseId : String) : StoreOp

/-- Apply one data-layer operation to the store; a rejected insert
leaves the store unchanged. -/
def applyOp (db : Store) : StoreOp → Store
  | .close sid => closeSession db sid
  | .create s =>
    match createSession db s with
    | .ok (_, db2) => db2
    | .error _ => db
  | .record s =>
    match recordScan db s with
    | .ok (_, db2) => db2
    | .error _ => db
  | .upsert a b c => (upsertStudentAndEnrol db a b c).2

/-- The scan of a student inside a session-with-scans pair, as the
fold body looks it up. -/
def scanOfStudent (studentNo : String) (s : Session × List Scan) : Option Scan :=
  s.2.find? (fun sc => sc.student_no == studentNo)

/-- The session counts as absent for the student: no scan found. -/
def isAbsentIn (studentNo : String) (s : Session × List Scan) : Bool :=
  (scanOfStudent studentNo s).isNone

/-- The session counts as late for the student: its scan has status
late. -/
def isLateIn (studentNo : String) (s : Session × List Scan) : Bool :=
  ((scanOfStudent studentNo s).map (fun sc => sc.status == "late")).getD false

/-- The session counts as present for the student: its scan has any
status other than late. -/
def isPresentIn (studentNo : String) (s : Session × List Scan) : Bool :=
  ((scanOfStudent studentNo s).map (fun sc => !(sc.status == "late"))).getD false

/-! ## Concrete fixtures used by witnesses and counterexamples -/

/-- An active session of course CRS1. -/
def sessA : Session :=
  { id := "SESH1", course_id := "CRS1", lecturer_id := "LEC1", date := "2025-03-03",
    start_time := "09:00", room := "R1", status := "active" }

/-- A closed session of course CRS1. -/
def sessB : Session :=
  { id := "SESH2", course_id := "CRS1", lecturer_id := "LEC1", date := "2025-03-04",
    start_time := "09:00", room := "R1", status := "closed" }

/-- A present scan of student 123 in SESH1. -/
def scanA : Scan :=
  { id := 1, session_id := "SESH1", student_no := "123",
    surname_initials := "Khumalo T.S.", status := "present", minutes_late := 0,
    scanned_at := 100 }

/-- A late scan of student 456 in SESH1, recorded after scanA. -/
def scanB : Scan :=
  { id := 2, session_id := "SESH1", student_no := "456",
    surname_initials := "Sithole L.R.", status := "late", minutes_late := 14,
    scanned_at := 200 }

/-- Two scan rows differ on the unique key (session_id, student_no):
the relation whose pairwise closure is the scans-table uniqueness
constraint. -/
def ScanKeysDistinct (a b : Scan) : Prop :=
  ¬(a.session_id = b.session_id ∧ a.student_no = b.student_no)

instance : DecidableRel ScanKeysDistinct :=
  fun a b => inferInstanceAs
    (Decidable (¬(a.session_id = b.session_id ∧ a.student_no = b.student_no)))

/-- The store before any check-in: one active session, empty scans. -/
def db0W : Store := { students := [], enrolments := [], sessions := [sessA], scans := [] }

/-- The scan row the first check-in of student 123 inserts (5 minutes
after start: status present, minutes_late 5). -/
def scanNew : Scan :=
  { id := 1, session_id := "SESH1", student_no := "123", surname_initials := "123",
    status := "present", minutes_late := 5, scanned_at := 300000 }

/-- The store after the first check-in. -/
def db1W : Store := { students := [], enrolments := [], sessions := [sessA], scans := [scanNew] }

/-- A store whose session SESH1 has two scans in ascending timestamp
order. -/
def db7 : Store := { students := [], enrolments := [], sessions := [sessA], scans := [scanA, scanB] }

/-- A store holding the student 123 with an old surname and an old
scan carrying the old name snapshot. -/
def dbU : Store :=
  { students := [{ id := "S_123", student_no := "123", surname_initials := "Old K." }],
    enrolments := [],
    sessions := [],
    scans := [{ id := 9, session_id := "SESH0", student_no := "123",
                surname_initials := "Old K.", status := "present", minutes_late := 0,
                scanned_at := 50 }] }

/-! ## Bridge lemmas: exact integer forms of the rational arithmetic -/

/-- Rounding the minute value n/60000 equals the integer floor division
(n + 30000) / 60000. -/
theorem jsRound_div_60000 (n : ℤ) : jsRound ((n : ℚ) / 60000) = (n + 30000) / 60000 := by
  unfold jsRound
  have h : (n : ℚ) / 60000 + 1/2 = ((n + 30000 : ℤ) : ℚ) / ((60000 : ℕ) : ℚ) := by
    push_cast
    field_simp
    ring
  rw [h, Rat.floor_intCast_div_natCast]
  norm_num

/-- The ten-minute comparison on the minute value n/60000 is the
600000-millisecond comparison on n. -/
theorem div_60000_le_ten (n : ℤ) : ((n : ℚ) / 60000 ≤ 10) ↔ (n ≤ 600000) := by
  rw [div_le_iff₀ (by norm_num : (0:ℚ) < 60000),
      show (10 : ℚ) * 60000 = ((600000 : ℤ) : ℚ) by norm_num, Int.cast_le]

/-- getScanStatus in closed integer form: present within 600000
milliseconds of the start, minutes late by integer floor division. -/
theorem getScanStatus_eq (scanMs startMs : ℤ) :
    getScanStatus scanMs startMs =
      { status := if scanMs - startMs ≤ 600000 then "present" else "late"
        minutesLate := max 0 ((scanMs - startMs + 30000) / 60000) } := by
  simp only [getScanStatus, div_60000_le_ten, jsRound_div_60000]

example : getScanStatus 300000 0 = { status := "present", minutesLate := 5 } := by
  rw [getScanStatus_eq]; decide
example : getScanStatus 840000 0 = { status := "late", minutesLate := 14 } := by
  rw [getScanStatus_eq]; decide
example : getScanStatus (-60000) 0 = { status := "present", minutesLate := 0 } := by
  rw [getScanStatus_eq]; decide

/-! ## C1 and C9: check-in classification -/

/-- C1 counterexample: a scan five minutes after the session start is
classified present, yet its minutes-late value is 5, not the 0 the
claim requires for present scans. -/
theorem getScanStatus_present_minutes_counterexample :
    (getScanStatus 300000 0).status = "present" ∧
    (getScanStatus 300000 0).minutesLate = 5 ∧ (5 : ℤ) ≠ 0 := by
  rw [getScanStatus_eq]
  exact ⟨by decide, by decide, by decide⟩

/-- C1 amended: the classification returns present exactly when the
elapsed time is at most 10 minutes and late otherwise; the minutes-late
value is max(0, round(elapsed)) in every case, hence equal to
round(elapsed) when late and never negative, but not 0 on every
present scan. -/
theorem getScanStatus_classification (scanMs startMs : ℤ) :
    ((getScanStatus scanMs startMs).status = "present" ↔
      ((scanMs - startMs : ℤ) : ℚ) / 60000 ≤ 10) ∧
    ((getScanStatus scanMs startMs).status = "late" ↔
      ¬ ((scanMs - startMs : ℤ) : ℚ) / 60000 ≤ 10) ∧
    (getScanStatus scanMs startMs).minutesLate
      = max 0 (jsRound (((scanMs - startMs : ℤ) : ℚ) / 60000)) ∧
    0 ≤ (getScanStatus scanMs startMs).minutesLate ∧
    (600000 < scanMs - startMs →
      (getScanStatus scanMs startMs).minutesLate
        = jsRound (((scanMs - startMs : ℤ) : ℚ) / 60000)) := by
  have hiff := div_60000_le_ten (scanMs - startMs)
  have hround := jsRound_div_60000 (scanMs - startMs)
  rw [getScanStatus_eq]
  by_cases h : scanMs - startMs ≤ 600000
  · rw [if_pos h]
    refine ⟨iff_of_true rfl (hiff.mpr h),
            iff_of_false (by simp) (fun hn => hn (hiff.mpr h)),
            by rw [hround], le_max_left 0 _,
            fun hlt => absurd hlt (not_lt.mpr h)⟩
  · rw [if_neg h]
    refine ⟨iff_of_false (by simp) (fun hq => h (hiff.mp hq)),
            iff_of_true rfl (fun hq => h (hiff.mp hq)),
            by rw [hround], le_max_left 0 _, fun hlt => ?_⟩
    rw [max_eq_right (by omega : (0:ℤ) ≤ (scanMs - startMs + 30000) / 60000), hround]

/-- C1 witness: concrete late scan fourteen minutes in. -/
theorem getScanStatus_classification_witness :
    (600000 : ℤ) < 840000 - 0 ∧
    (getScanStatus 840000 0).minutesLate = jsRound (((840000 - 0 : ℤ) : ℚ) / 60000) :=
  ⟨by decide, (getScanStatus_classification 840000 0).2.2.2.2 (by decide)⟩

/-- C9: a scan at or before the session start (elapsed at most zero
minutes) is classified present with zero minutes late. -/
theorem getScanStatus_early (scanMs startMs : ℤ) (h : scanMs ≤ startMs) :
    getScanStatus scanMs startMs = { status := "present", minutesLate := 0 } := by
  rw [getScanStatus_eq, if_pos (by omega : scanMs - startMs ≤ 600000),
      max_eq_left (by omega : (scanMs - startMs + 30000) / 60000 ≤ 0)]

/-- C9 witness: one minute early. -/
theorem getScanStatus_early_witness :
    (-60000 : ℤ) ≤ 0 ∧
    getScanStatus (-60000) 0 = { status := "present", minutesLate := 0 } :=
  ⟨by decide, getScanStatus_early (-60000) 0 (by decide)⟩

/-! ## C4: attendance percentage -/

/-- C4 counterexample: with attended = present + late = 1 and total = 0
the code returns 0 while the claimed formula round(100*1/max(0,1))
gives 100. -/
theorem pct_zero_total_counterexample :
    pct (1 + 0) 0 = 0 ∧
    jsRound (100 * ((1 + 0 : ℕ) : ℚ) / ((max 0 1 : ℕ) : ℚ)) = 100 ∧ (0 : ℤ) ≠ 100 := by
  refine ⟨rfl, ?_, by decide⟩
  norm_num [jsRound]

/-- C4 amended: for positive total the percentage equals
round(100*(present+late)/max(total,1)), and for total = 0 it is the
defined value 0 (never undefined), so pct(0,0,0) = 0. -/
theorem pct_formula (p l t : ℕ) :
    (0 < t → pct (p + l) t = jsRound (100 * ((p + l : ℕ) : ℚ) / ((max t 1 : ℕ) : ℚ))) ∧
    (t = 0 → pct (p + l) t = 0) := by
  constructor
  · intro ht
    rw [pct, if_neg (Nat.pos_iff_ne_zero.mp ht)]
    congr 1
    rw [max_eq_left ht]
    ring
  · intro ht
    rw [pct, if_pos ht]

/-- C4 witness: 7 of 10 sessions and the empty register. -/
theorem pct_formula_witness :
    (0 < 10 ∧ pct (7 + 0) 10 = jsRound (100 * ((7 + 0 : ℕ) : ℚ) / ((max 10 1 : ℕ) : ℚ))) ∧
    ((0 : ℕ) = 0 ∧ pct (0 + 0) 0 = 0) :=
  ⟨⟨by decide, (pct_formula 7 0 10).1 (by decide)⟩, ⟨rfl, (pct_formula 0 0 0).2 rfl⟩⟩

/-! ## C6: policy classification and export at-risk flag -/

/-- C6: Good Standing exactly at p at least 80, At Risk exactly on
[60, 80), Critical exactly below 60, with the four boundary values,
and the export row is flagged at risk exactly when its attendance
percentage is below 80. -/
theorem attendanceStatus_thresholds :
    (∀ p : ℚ, ((attendanceStatus p).label = "Good Standing" ↔ 80 ≤ p) ∧
              ((attendanceStatus p).label = "At Risk" ↔ 60 ≤ p ∧ p < 80) ∧
              ((attendanceStatus p).label = "Critical" ↔ p < 60)) ∧
    (attendanceStatus 80).label = "Good Standing" ∧
    (attendanceStatus 79).label = "At Risk" ∧
    (attendanceStatus 60).label = "At Risk" ∧
    (attendanceStatus 59).label = "Critical" ∧
    (∀ cs sno, ((exportStudentRow cs sno).atRisk = "YES — INTERVENTION NEEDED" ↔
                (exportStudentRow cs sno).attPct < 80)) := by
  have hmain : ∀ p : ℚ, ((attendanceStatus p).label = "Good Standing" ↔ 80 ≤ p) ∧
      ((attendanceStatus p).label = "At Risk" ↔ 60 ≤ p ∧ p < 80) ∧
      ((attendanceStatus p).label = "Critical" ↔ p < 60) := by
    intro p
    unfold attendanceStatus
    split_ifs with h1 h2
    · exact ⟨iff_of_true rfl h1,
             iff_of_false (by simp) (fun hc => absurd h1 (not_le.mpr hc.2)),
             iff_of_false (by simp) (not_lt.mpr (le_trans (by norm_num) h1))⟩
    · exact ⟨iff_of_false (by simp) h1,
             iff_of_true rfl ⟨h2, not_le.mp h1⟩,
             iff_of_false (by simp) (not_lt.mpr h2)⟩
    · exact ⟨iff_of_false (by simp) h1,
             iff_of_false (by simp) (fun hc => h2 hc.1),
             iff_of_true rfl (not_le.mp h2)⟩
  refine ⟨hmain, ?_, ?_, ?_, ?_, ?_⟩
  · exact (hmain 80).1.mpr (by norm_num)
  · exact (hmain 79).2.1.mpr (by norm_num)
  · exact (hmain 60).2.1.mpr (by norm_num)
  · exact (hmain 59).2.2.mpr (by norm_num)
  · intro cs sno
    have hgen : ∀ a : ℤ,
        ((if a < 80 then "YES — INTERVENTION NEEDED" else "No")
          = "YES — INTERVENTION NEEDED" ↔ a < 80) := by
      intro a
      split_ifs with h
      · exact iff_of_true rfl h
      · exact iff_of_false (by simp) h
    exact hgen ((exportStudentRow cs sno).attPct)

/-! ## C3: per-student per-course statistics -/

/-- The statistics fold counts exactly the present/late/absent
sessions on top of any accumulator. -/
theorem foldl_statsStep (studentNo : String) (l : List (Session × List Scan)) (a b c : ℕ) :
    l.foldl (statsStep studentNo) (a, b, c) =
      (a + l.countP (isPresentIn studentNo),
       b + l.countP (isLateIn studentNo),
       c + l.countP (isAbsentIn studentNo)) := by
  induction l generalizing a b c with
  | nil => simp
  | cons hd tl ih =>
    rw [List.foldl_cons]
    rcases hfind : hd.2.find? (fun sc => sc.student_no == studentNo) with _ | sc
    · have h1 : statsStep studentNo (a, b, c) hd = (a, b, c + 1) := by
        simp [statsStep, hfind]
      rw [h1, ih]
      simp [List.countP_cons, isPresentIn, isLateIn, isAbsentIn, scanOfStudent, hfind,
        Prod.ext_iff] <;> omega
    · cases hst : sc.status == "late" with
      | true =>
        have h1 : statsStep studentNo (a, b, c) hd = (a, b + 1, c) := by
          simp [statsStep, hfind, hst]
        rw [h1, ih]
        simp [List.countP_cons, isPresentIn, isLateIn, isAbsentIn, scanOfStudent, hfind,
          hst, Prod.ext_iff] <;> omega
      | false =>
        have h1 : statsStep studentNo (a, b, c) hd = (a + 1, b, c) := by
          simp [statsStep, hfind, hst]
        rw [h1, ih]
        simp [List.countP_cons, isPresentIn, isLateIn, isAbsentIn, scanOfStudent, hfind,
          hst, Prod.ext_iff] <;> omega

/-- studentCourseStats in closed form: length and three countP over
the filtered course sessions. -/
theorem studentCourseStats_eq (studentNo courseId : String)
    (sessions : List (Session × List Scan)) :
    studentCourseStats studentNo courseId sessions =
      { total := (sessions.filter (fun s => s.1.course_id == courseId)).length
        present := (sessions.filter (fun s => s.1.course_id == courseId)).countP
          (isPresentIn studentNo)
        late := (sessions.filter (fun s => s.1.course_id == courseId)).countP
          (isLateIn studentNo)
        absent := (sessions.filter (fun s => s.1.course_id == courseId)).countP
          (isAbsentIn studentNo) } := by
  simp only [studentCourseStats]
  rw [foldl_statsStep]
  simp

/-- Each session lands in exactly one of the three classes. -/
theorem countP_classes (studentNo : String) (l : List (Session × List Scan)) :
    l.countP (isPresentIn studentNo) + l.countP (isLateIn studentNo) +
      l.countP (isAbsentIn studentNo) = l.length := by
  induction l with
  | nil => simp
  | cons hd tl ih =>
    simp only [List.countP_cons, List.length_cons]
    rcases hfind : hd.2.find? (fun sc => sc.student_no == studentNo) with _ | sc
    · simp [isPresentIn, isLateIn, isAbsentIn, scanOfStudent, hfind] <;> omega
    · cases hst : sc.status == "late" with
      | true =>
        simp [isPresentIn, isLateIn, isAbsentIn, scanOfStudent, hfind, hst] <;> omega
      | false =>
        simp [isPresentIn, isLateIn, isAbsentIn, scanOfStudent, hfind, hst] <;> omega

/-- C3: the statistics fold classifies every course session as absent
without a scan, late on a late scan and present otherwise; the counts
partition the course sessions so present + late + absent = total =
number of course sessions; and the result is invariant under
reordering of the session list (hence depends only on which sessions
are present, and is recomputed from the inputs as a pure function). -/
theorem studentCourseStats_spec (studentNo courseId : String)
    (sessions sessions2 : List (Session × List Scan)) (hperm : sessions.Perm sessions2) :
    ((studentCourseStats studentNo courseId sessions).present
      + (studentCourseStats studentNo courseId sessions).late
      + (studentCourseStats studentNo courseId sessions).absent
      = (studentCourseStats studentNo courseId sessions).total) ∧
    (studentCourseStats studentNo courseId sessions).total
      = (sessions.filter (fun s => s.1.course_id == courseId)).length ∧
    (studentCourseStats studentNo courseId sessions).absent
      = (sessions.filter (fun s => s.1.course_id == courseId)).countP (isAbsentIn studentNo) ∧
    (studentCourseStats studentNo courseId sessions).late
      = (sessions.filter (fun s => s.1.course_id == courseId)).countP (isLateIn studentNo) ∧
    (studentCourseStats studentNo courseId sessions).present
      = (sessions.filter (fun s => s.1.course_id == courseId)).countP (isPresentIn studentNo) ∧
    studentCourseStats studentNo courseId sessions
      = studentCourseStats studentNo courseId sessions2 := by
  have hf := hperm.filter (fun s => s.1.course_id == courseId)
  rw [studentCourseStats_eq studentNo courseId sessions,
      studentCourseStats_eq studentNo courseId sessions2]
  refine ⟨countP_classes studentNo _, rfl, rfl, rfl, rfl, ?_⟩
  simp only [Stats.mk.injEq]
  exact ⟨hf.length_eq, hf.countP_eq _, hf.countP_eq _, hf.countP_eq _⟩

/-- C3 witness: the statistics are invariant under swapping the two
sessions of the list. -/
theorem studentCourseStats_spec_witness :
    studentCourseStats "123" "CRS1" [(sessA, [scanA, scanB]), (sessB, [])]
      = studentCourseStats "123" "CRS1" [(sessB, []), (sessA, [scanA, scanB])] :=
  (studentCourseStats_spec "123" "CRS1" _ _ (by decide)).2.2.2.2.2

example : studentCourseStats "123" "CRS1" [(sessA, [scanA, scanB]), (sessB, [])]
    = { total := 2, present := 1, late := 0, absent := 1 } := by decide
example : studentCourseStats "456" "CRS1" [(sessA, [scanA, scanB]), (sessB, [])]
    = { total := 2, present := 0, late := 1, absent := 1 } := by decide

/-! ## C8: closing a session -/

/-- After closeSession, every session row carrying the closed id has
status closed. -/
theorem closeSession_mem_closed (db : Store) (sid : String) :
    ∀ s ∈ (closeSession db sid).sessions, s.id = sid → s.status = "closed" := by
  intro s hs hid
  simp only [closeSession, List.mem_map] at hs
  obtain ⟨t, ht, hft⟩ := hs
  by_cases h : (t.id == sid) = true
  · rw [if_pos h] at hft
    rw [← hft]
  · rw [if_neg h] at hft
    subst hft
    exact absurd hid (by simpa using h)

/-- A session row that already has status closed is unchanged by the
closing update. -/
theorem close_update_fixed (s : Session) (h : s.status = "closed") :
    { s with status := "closed" } = s := by
  rw [← h]

/-- recordScan never touches the sessions table. -/
theorem applyOp_record_sessions (db : Store) (s : Scan) :
    (applyOp db (StoreOp.record s)).sessions = db.sessions := by
  by_cases hc : scanConflict db.scans s.session_id s.student_no = true
  · simp [applyOp, recordScan, hc]
  · simp [applyOp, recordScan, hc]

/-- upsertStudentAndEnrol never touches the sessions table. -/
theorem applyOp_upsert_sessions (db : Store) (a b c : String) :
    (applyOp db (StoreOp.upsert a b c)).sessions = db.sessions := by
  simp only [applyOp, upsertStudentAndEnrol]
  split
  · split
    · rfl
    · rfl
  · split
    · rfl
    · rfl

/-- C8: closing a session leaves scans, students, enrolments and the
number of sessions unchanged; rows with another id are untouched and
the matching row changes only its status field to closed; closing a
nonexistent or already-closed session is a no-op; and once a session
id is closed, no data-layer operation ever makes a session with that
id active again. -/
theorem closeSession_spec (db : Store) (sid : String) :
    (closeSession db sid).scans = db.scans ∧
    (closeSession db sid).students = db.students ∧
    (closeSession db sid).enrolments = db.enrolments ∧
    (closeSession db sid).sessions.length = db.sessions.length ∧
    (∀ s ∈ db.sessions, s.id ≠ sid → s ∈ (closeSession db sid).sessions) ∧
    (∀ s ∈ db.sessions, s.id = sid →
      { s with status := "closed" } ∈ (closeSession db sid).sessions) ∧
    (∀ s ∈ (closeSession db sid).sessions, s.id = sid → s.status = "closed") ∧
    ((∀ s ∈ db.sessions, s.id ≠ sid) → closeSession db sid = db) ∧
    ((∀ s ∈ db.sessions, s.id = sid → s.status = "closed") → closeSession db sid = db) ∧
    (∀ op : StoreOp, (∃ s ∈ db.sessions, s.id = sid) →
      (∀ s ∈ db.sessions, s.id = sid → s.status = "closed") →
      ∀ s ∈ (applyOp db op).sessions, s.id = sid → s.status = "closed") := by
  refine ⟨rfl, rfl, rfl, by simp [closeSession], ?_, ?_, closeSession_mem_closed db sid,
    ?_, ?_, ?_⟩
  · intro s hs hneq
    simp only [closeSession, List.mem_map]
    exact ⟨s, hs, by rw [if_neg (by simpa using hneq)]⟩
  · intro s hs hid
    simp only [closeSession, List.mem_map]
    exact ⟨s, hs, by rw [if_pos (by simpa using hid)]⟩
  · intro hnone
    have hmap : db.sessions.map
        (fun s => if s.id == sid then { s with status := "closed" } else s) = db.sessions := by
      conv_rhs => rw [← List.map_id db.sessions]
      exact List.map_congr_left
        (fun s hs => by rw [if_neg (by simpa using hnone s hs)]; rfl)
    simp only [closeSession, hmap]
  · intro hclosed
    have hmap : db.sessions.map
        (fun s => if s.id == sid then { s with status := "closed" } else s) = db.sessions := by
      conv_rhs => rw [← List.map_id db.sessions]
      refine List.map_congr_left (fun s hs => ?_)
      by_cases h : (s.id == sid) = true
      · rw [if_pos h, close_update_fixed s (hclosed s hs (by simpa using h))]
        rfl
      · rw [if_neg h]
        rfl
    simp only [closeSession, hmap]
  · intro op hex hcl s hs hid
    cases op with
    | close sid2 =>
      obtain ⟨t, ht, hft⟩ := List.mem_map.mp hs
      by_cases h2 : (t.id == sid2) = true
      · rw [if_pos h2] at hft
        rw [← hft]
      · rw [if_neg h2] at hft
        subst hft
        exact hcl t ht hid
    | create s2 =>
      by_cases hdup : (db.sessions.any (fun t => t.id == s2.id)) = true
      · have heq : applyOp db (StoreOp.create s2) = db := by
          simp [applyOp, createSession, hdup]
        rw [heq] at hs
        exact hcl s hs hid
      · have heq : applyOp db (StoreOp.create s2)
            = { db with sessions := db.sessions ++ [{ s2 with status := "active" }] } := by
          simp [applyOp, createSession, hdup]
        rw [heq] at hs
        rcases List.mem_append.mp hs with h | h
        · exact hcl s h hid
        · have hmem : s = { s2 with status := "active" } := by
            simpa using h
          obtain ⟨t, ht, htid⟩ := hex
          have hsid : s2.id = sid := by
            rw [hmem] at hid
            exact hid
          exact absurd (List.any_eq_true.mpr ⟨t, ht, by simp [htid, hsid]⟩) hdup
    | record s2 =>
      rw [applyOp_record_sessions] at hs
      exact hcl s hs hid
    | upsert a b c =>
      rw [applyOp_upsert_sessions] at hs
      exact hcl s hs hid

/-! ## C5: no-active-session outcome -/

/-- A check-in attempt lands in the no-session outcome, with the store
untouched, whenever the link has no session id, the session id is
unknown to the store, or every matching session is not active. -/
theorem checkIn_noSession_of_inactive (db : Store) (sessionId : Option String)
    (raw : String) (nowMs startMs : ℤ) (nid : ℕ)
    (h : ∀ s ∈ db.sessions, some s.id = sessionId → s.status ≠ "active") :
    checkInAttempt db sessionId raw nowMs startMs nid = (ScanOutcome.noSession, db) := by
  cases sessionId with
  | none => rfl
  | some sid =>
    cases hf : db.sessions.find? (fun s => s.id == sid) with
    | none => simp [checkInAttempt, loadStep, getSession, hf]
    | some s =>
      have hmem := List.mem_of_find?_eq_some hf
      have hids : s.id = sid := by simpa using List.find?_some hf
      have hstat : s.status ≠ "active" := h s hmem (by rw [hids])
      have hbeq : (s.status == "active") = false := by
        simpa using hstat
      simp [checkInAttempt, loadStep, getSession, hf, hbeq]

/-- C5: a check-in attempt against a missing or inactive session gives
the distinct no-active-session outcome (store untouched); in
particular closing a session and then attempting a check-in against it
gives that outcome; and the no-session outcome is a different
constructor from the generic failure, the duplicate messages and the
scan outcomes. -/
theorem checkInAttempt_no_active_session :
    (∀ (db : Store) (sessionId : Option String) (raw : String) (nowMs startMs : ℤ) (nid : ℕ),
      (∀ s ∈ db.sessions, some s.id = sessionId → s.status ≠ "active") →
      checkInAttempt db sessionId raw nowMs startMs nid = (ScanOutcome.noSession, db)) ∧
    (∀ (db : Store) (sid raw : String) (nowMs startMs : ℤ) (nid : ℕ),
      checkInAttempt (closeSession db sid) (some sid) raw nowMs startMs nid
        = (ScanOutcome.noSession, closeSession db sid)) ∧
    ScanOutcome.noSession ≠ ScanOutcome.errGeneric ∧
    ScanOutcome.noSession ≠ ScanOutcome.errDuplicate ∧
    ScanOutcome.noSession ≠ ScanOutcome.errEmpty ∧
    (∀ r, ScanOutcome.noSession ≠ ScanOutcome.alreadyLocal r) ∧
    (∀ r, ScanOutcome.noSession ≠ ScanOutcome.success r) := by
  refine ⟨fun db sessionId raw nowMs startMs nid h =>
      checkIn_noSession_of_inactive db sessionId raw nowMs startMs nid h,
    fun db sid raw nowMs startMs nid =>
      checkIn_noSession_of_inactive (closeSession db sid) (some sid) raw nowMs startMs nid
        (fun s hs heq => ?_),
    by decide, by decide, by decide,
    fun r h => ScanOutcome.noConfusion h,
    fun r h => ScanOutcome.noConfusion h⟩
  have hid : s.id = sid := by
    injection heq
  rw [closeSession_mem_closed db sid s hs hid]
  decide

/-- C5 witness: a closed session store; the attempt lands in the
no-session outcome. -/
theorem checkInAttempt_no_active_session_witness :
    checkInAttempt
        { students := [], enrolments := [], sessions := [sessB], scans := [] }
        (some "SESH2") "123" 300000 0 7
      = (ScanOutcome.noSession,
         { students := [], enrolments := [], sessions := [sessB], scans := [] }) :=
  checkInAttempt_no_active_session.1
    { students := [], enrolments := [], sessions := [sessB], scans := [] }
    (some "SESH2") "123" 300000 0 7 (by decide)

/-! ## C2: duplicate check-ins -/

/-- Under the uniqueness constraint, two rows of the scans table with
the same key are the same row. -/
theorem eq_of_pairwise_keys {rows : List Scan}
    (h : rows.Pairwise ScanKeysDistinct) {r1 r2 : Scan}
    (h1 : r1 ∈ rows) (h2 : r2 ∈ rows)
    (hs : r1.session_id = r2.session_id) (hn : r1.student_no = r2.student_no) :
    r1 = r2 := by
  induction rows with
  | nil => cases h1
  | cons a l ih =>
    rw [List.pairwise_cons] at h
    rcases List.mem_cons.mp h1 with rfl | h1'
    · rcases List.mem_cons.mp h2 with rfl | h2'
      · rfl
      · exact absurd ⟨hs, hn⟩ (h.1 r2 h2')
    · rcases List.mem_cons.mp h2 with rfl | h2'
      · exact absurd ⟨hs.symm, hn.symm⟩ (h.1 r1 h1')
      · exact ih h.2 h1' h2'

/-- Inserting a scan that passes the uniqueness check keeps the scans
table free of duplicate keys. -/
theorem pairwise_append_scan {rows : List Scan} {s : Scan}
    (h : rows.Pairwise ScanKeysDistinct)
    (hc : scanConflict rows s.session_id s.student_no = false) :
    (rows ++ [s]).Pairwise ScanKeysDistinct := by
  rw [List.pairwise_append]
  refine ⟨h, List.pairwise_singleton _ _, ?_⟩
  intro a ha b hb
  have hb' : b = s := by simpa using hb
  rw [hb']
  intro hkeys
  have hany : rows.any (fun r => r.session_id == s.session_id
      && r.student_no == s.student_no) = true :=
    List.any_eq_true.mpr ⟨a, ha, by simp [hkeys.1, hkeys.2]⟩
  rw [scanConflict] at hc
  rw [hc] at hany
  exact Bool.noConfusion hany

/-- C2 amended: when the view holds the session state as stored, a
second check-in for the same student returns the stored scan record
unchanged with the store untouched; when the view state is stale and
the duplicate insert reaches the store, the uniqueness rejection is
mapped to the specific already-scanned message (not the generic
failure) with the store untouched; and the scans table never acquires
two rows for one (session, student number) key. -/
theorem handleScan_idempotent (view : Session × List Scan) (db : Store) (raw : String)
    (nowMs startMs : ℤ) (nid : ℕ)
    (huniq : db.scans.Pairwise ScanKeysDistinct) :
    (handleScan view db raw nowMs startMs nid).2.scans.Pairwise ScanKeysDistinct ∧
    (∀ r ∈ db.scans,
      view.2 = db.scans.filter (fun x => x.session_id == view.1.id) →
      r.session_id = view.1.id → r.student_no = trimString raw → trimString raw ≠ "" →
      handleScan view db raw nowMs startMs nid = (ScanOutcome.alreadyLocal r, db)) ∧
    (∀ r ∈ db.scans,
      (∀ x ∈ view.2, x.student_no ≠ trimString raw) →
      r.session_id = view.1.id → r.student_no = trimString raw → trimString raw ≠ "" →
      handleScan view db raw nowMs startMs nid = (ScanOutcome.errDuplicate, db)) := by
  refine ⟨?_, ?_, ?_⟩
  · by_cases hempty : trimString raw = ""
    · simp only [handleScan, if_pos hempty]
      exact huniq
    · cases hfind : view.2.find? (fun sc => sc.student_no == trimString raw) with
      | some ex =>
        simp only [handleScan, if_neg hempty, hfind]
        exact huniq
      | none =>
        by_cases hc : scanConflict db.scans view.1.id (trimString raw) = true
        · simp only [handleScan, if_neg hempty, hfind, recordScan, hc, if_true]
          exact huniq
        · have hcf : scanConflict db.scans view.1.id (trimString raw) = false := by
            simpa using hc
          simp only [handleScan, if_neg hempty, hfind, recordScan, hcf,
            Bool.false_eq_true, if_false]
          exact pairwise_append_scan huniq hcf
  · intro r hr hview hrs hrn hne
    have hrview : r ∈ view.2 := by
      rw [hview]
      exact List.mem_filter.mpr ⟨hr, by simp [hrs]⟩
    have hsome : (view.2.find? (fun sc => sc.student_no == trimString raw)).isSome :=
      List.find?_isSome.mpr ⟨r, hrview, by simp [hrn]⟩
    obtain ⟨ex, hex⟩ := Option.isSome_iff_exists.mp hsome
    have hexmem : ex ∈ view.2 := List.mem_of_find?_eq_some hex
    have hexpred : ex.student_no = trimString raw := by
      simpa using List.find?_some hex
    have hexdb : ex ∈ db.scans ∧ (ex.session_id == view.1.id) = true := by
      rw [hview] at hexmem
      exact List.mem_filter.mp hexmem
    have hexsid : ex.session_id = view.1.id := by
      simpa using hexdb.2
    have hexr : ex = r :=
      eq_of_pairwise_keys huniq hexdb.1 hr
        (hexsid.trans hrs.symm) (hexpred.trans hrn.symm)
    have hrun : handleScan view db raw nowMs startMs nid
        = (ScanOutcome.alreadyLocal ex, db) := by
      simp [handleScan, hne, hex]
    rw [hrun, hexr]
  · intro r hr hstale hrs hrn hne
    have hfind : view.2.find? (fun sc => sc.student_no == trimString raw) = none :=
      List.find?_eq_none.mpr (fun x hx => by simp [hstale x hx])
    have hc : scanConflict db.scans view.1.id (trimString raw) = true := by
      rw [scanConflict]
      exact List.any_eq_true.mpr ⟨r, hr, by simp [hrs, hrn]⟩
    simp [handleScan, hne, hfind, recordScan, hc]

/-- C2 counterexample: with the view loaded before the first scan
(scans list empty) the first check-in succeeds, but the second
check-in through the same view does not return the recorded scan: the
store's duplicate rejection surfaces as the already-scanned error
message, not as the first scan record. -/
theorem handleScan_stale_counterexample :
    handleScan (sessA, []) db0W "123" 300000 0 1 = (ScanOutcome.success scanNew, db1W) ∧
    handleScan (sessA, []) db1W "123" 360000 0 2 = (ScanOutcome.errDuplicate, db1W) ∧
    (∀ r, ScanOutcome.errDuplicate ≠ ScanOutcome.alreadyLocal r) := by
  have hstat : getScanStatus 300000 0 = { status := "present", minutesLate := 5 } := by
    rw [getScanStatus_eq]; decide
  refine ⟨?_, ?_, fun r h => ScanOutcome.noConfusion h⟩
  · simp only [handleScan, hstat]
    decide
  · decide

/-- C2 witness: with the view holding the stored session state, the
second check-in of student 123 returns the stored scan itself. -/
theorem handleScan_idempotent_witness :
    db1W.scans.Pairwise ScanKeysDistinct ∧
    handleScan (sessA, [scanNew]) db1W "123" 360000 0 2
      = (ScanOutcome.alreadyLocal scanNew, db1W) :=
  ⟨by decide,
   (handleScan_idempotent (sessA, [scanNew]) db1W "123" 360000 0 2 (by decide)).2.1
     scanNew (by decide) (by decide) (by decide) (by decide) (by decide)⟩

/-! ## C7: reading session state -/

/-- insertScanDesc only reorders: the result is a permutation of
putting the new scan in front. -/
theorem insertScanDesc_perm (r : Scan) (l : List Scan) :
    (insertScanDesc r l).Perm (r :: l) := by
  induction l with
  | nil => exact List.Perm.refl _
  | cons x xs ih =>
    rw [insertScanDesc]
    by_cases h : x.scanned_at < r.scanned_at
    · rw [if_pos h]
    · rw [if_neg h]
      exact (ih.cons x).trans (List.Perm.swap r x xs)

/-- insertScanDesc keeps the list sorted by scanned_at descending. -/
theorem insertScanDesc_sorted (r : Scan) (l : List Scan)
    (h : l.Pairwise (fun a b => b.scanned_at ≤ a.scanned_at)) :
    (insertScanDesc r l).Pairwise (fun a b => b.scanned_at ≤ a.scanned_at) := by
  induction l with
  | nil => simp [insertScanDesc]
  | cons x xs ih =>
    rw [List.pairwise_cons] at h
    rw [insertScanDesc]
    by_cases hlt : x.scanned_at < r.scanned_at
    · rw [if_pos hlt, List.pairwise_cons]
      constructor
      · intro b hb
        rcases List.mem_cons.mp hb with rfl | hb'
        · exact le_of_lt hlt
        · exact le_trans (h.1 b hb') (le_of_lt hlt)
      · exact List.pairwise_cons.mpr h
    · rw [if_neg hlt, List.pairwise_cons]
      constructor
      · intro b hb
        rcases List.mem_cons.mp ((insertScanDesc_perm r xs).subset hb) with rfl | hb'
        · exact le_of_not_lt hlt
        · exact h.1 b hb'
      · exact ih h.2

/-- The descending sort is a permutation of its input. -/
theorem sortScansDesc_perm (l : List Scan) : (sortScansDesc l).Perm l := by
  induction l with
  | nil => exact List.Perm.refl _
  | cons x xs ih =>
    show (insertScanDesc x (sortScansDesc xs)).Perm (x :: xs)
    exact (insertScanDesc_perm x _).trans (ih.cons x)

/-- The descending sort is sorted by scanned_at descending. -/
theorem sortScansDesc_sorted (l : List Scan) :
    (sortScansDesc l).Pairwise (fun a b => b.scanned_at ≤ a.scanned_at) := by
  induction l with
  | nil => simp [sortScansDesc]
  | cons x xs ih =>
    show (insertScanDesc x (sortScansDesc xs)).Pairwise _
    exact insertScanDesc_sorted x _ ih

/-- C7 counterexample: getSession returns the embedded scans in store
order; here the earlier scan comes first, so the list is not
most-recent-first. -/
theorem getSession_order_counterexample :
    getSession db7 "SESH1" = some (sessA, [scanA, scanB]) ∧
    scanA.scanned_at < scanB.scanned_at ∧
    ¬ ([scanA, scanB].Pairwise (fun a b => b.scanned_at ≤ a.scanned_at)) := by
  refine ⟨by decide, by decide, by decide⟩

/-- C7 amended: getSession returns the session with id equal to the
requested one together with exactly the scans recorded for it (with no
ordering guarantee), while the separate scans query
getScansForSession returns exactly those scans sorted by scan
timestamp descending. -/
theorem readSessionState_spec :
    (∀ (db : Store) (sid : String) (s : Session) (l : List Scan),
      getSession db sid = some (s, l) →
      s ∈ db.sessions ∧ s.id = sid ∧
        ∀ r, (r ∈ l ↔ r ∈ db.scans ∧ r.session_id = sid)) ∧
    (∀ (db : Store) (sid : String),
      (getScansForSession db sid).Perm
        (db.scans.filter (fun r => r.session_id == sid))) ∧
    (∀ (db : Store) (sid : String),
      (getScansForSession db sid).Pairwise (fun a b => b.scanned_at ≤ a.scanned_at)) := by
  refine ⟨?_, fun db sid => sortScansDesc_perm _, fun db sid => sortScansDesc_sorted _⟩
  intro db sid s l hsl
  unfold getSession at hsl
  obtain ⟨t, hf, hmk⟩ := Option.map_eq_some'.mp hsl
  rw [Prod.mk.injEq] at hmk
  obtain ⟨hts, hlf⟩ := hmk
  subst hts
  subst hlf
  refine ⟨List.mem_of_find?_eq_some hf, by simpa using List.find?_some hf, fun r => ?_⟩
  simp [List.mem_filter]

/-- C7 witness: concrete read of SESH1. -/
theorem readSessionState_spec_witness :
    sessA ∈ db7.sessions ∧
    (scanA ∈ [scanA, scanB] ↔ scanA ∈ db7.scans ∧ scanA.session_id = "SESH1") :=
  ⟨(readSessionState_spec.1 db7 "SESH1" sessA [scanA, scanB] (by decide)).1,
   (readSessionState_spec.1 db7 "SESH1" sessA [scanA, scanB] (by decide)).2.2 scanA⟩

/-- C8 witness: closing the already-closed SESH2 and closing an
unknown id are both no-ops on a concrete store. -/
theorem closeSession_spec_witness :
    closeSession { students := [], enrolments := [], sessions := [sessB], scans := [scanA] }
        "SESH2"
      = { students := [], enrolments := [], sessions := [sessB], scans := [scanA] } ∧
    closeSession { students := [], enrolments := [], sessions := [sessB], scans := [scanA] }
        "NOSUCH"
      = { students := [], enrolments := [], sessions := [sessB], scans := [scanA] } :=
  ⟨(closeSession_spec _ "SESH2").2.2.2.2.2.2.2.2.1 (by decide),
   (closeSession_spec _ "NOSUCH").2.2.2.2.2.2.2.1 (by decide)⟩

/-! ## C10: upserting an existing student -/

/-- After replacing every row matching the student number, the lookup
by student number finds the replacement row. -/
theorem find?_replaceAll (l : List Student) (sNo : String) (row : Student)
    (hrow : (row.student_no == sNo) = true)
    (hany : (l.any fun st => st.student_no == sNo) = true) :
    ((l.map fun st => if st.student_no == sNo then row else st).find?
      (fun st => st.student_no == sNo)) = some row := by
  induction l with
  | nil => exact Bool.noConfusion hany
  | cons x xs ih =>
    rw [List.map_cons]
    by_cases hx : (x.student_no == sNo) = true
    · rw [if_pos hx]
      simp [List.find?_cons, hrow]
    · have hx2 : (x.student_no == sNo) = false := by simpa using hx
      rw [if_neg hx]
      have hany' : (xs.any fun st => st.student_no == sNo) = true := by
        rcases List.any_eq_true.mp hany with ⟨y, hy, hpy⟩
        rcases List.mem_cons.mp hy with rfl | hy'
        · exact absurd hpy hx
        · exact List.any_eq_true.mpr ⟨y, hy', hpy⟩
      simp only [List.find?_cons, hx2]
      exact ih hany'

/-- When no existing row matches the student number, the lookup after
appending the fresh row finds the fresh row. -/
theorem find?_append_fresh (l : List Student) (sNo : String) (row : Student)
    (hrow : (row.student_no == sNo) = true)
    (hnone : (l.any fun st => st.student_no == sNo) = false) :
    ((l ++ [row]).find? (fun st => st.student_no == sNo)) = some row := by
  induction l with
  | nil => simp [List.find?_cons, hrow]
  | cons x xs ih =>
    rw [List.any_cons, Bool.or_eq_false_iff] at hnone
    rw [List.cons_append]
    simp only [List.find?_cons, hnone.1]
    exact ih hnone.2

/-- The student record upsertStudentAndEnrol returns: id S_ plus the
student number, with the supplied fields. -/
theorem upsert_result (db : Store) (sNo name cid : String) :
    (upsertStudentAndEnrol db sNo name cid).1
      = { id := "S_" ++ sNo, student_no := sNo, surname_initials := name } := by
  unfold upsertStudentAndEnrol
  by_cases hany : (db.students.any fun st => st.student_no == sNo) = true
  · simp only [hany, if_true]
    rw [find?_replaceAll db.students sNo
      { id := "S_" ++ sNo, student_no := sNo, surname_initials := name } (by simp) hany]
    simp
  · have hf : (db.students.any fun st => st.student_no == sNo) = false := by
      simpa using hany
    simp only [hf, Bool.false_eq_true, if_false]
    rw [find?_append_fresh db.students sNo
      { id := "S_" ++ sNo, student_no := sNo, surname_initials := name } (by simp) hf]
    simp

/-- The students table after the upsert: every matching row replaced
with the newly supplied values, or the fresh row appended. -/
theorem upsert_students_eq (db : Store) (sNo name cid : String) :
    (upsertStudentAndEnrol db sNo name cid).2.students =
      if (db.students.any fun st => st.student_no == sNo) = true
      then db.students.map (fun st => if st.student_no == sNo
        then { id := "S_" ++ sNo, student_no := sNo, surname_initials := name } else st)
      else db.students ++
        [{ id := "S_" ++ sNo, student_no := sNo, surname_initials := name }] := by
  unfold upsertStudentAndEnrol
  by_cases hany : (db.students.any fun st => st.student_no == sNo) = true
  · simp only [hany, if_true]
    split
    · rfl
    · rfl
  · have hf : (db.students.any fun st => st.student_no == sNo) = false := by
      simpa using hany
    simp only [hf, Bool.false_eq_true, if_false]
    split
    · rfl
    · rfl

/-- The enrolments table after the upsert: unchanged when the
(student, course) pair is already enrolled, otherwise the pair is
appended, keyed by the canonical id. -/
theorem upsert_enrolments_eq (db : Store) (sNo name cid : String) :
    (upsertStudentAndEnrol db sNo name cid).2.enrolments =
      if (db.enrolments.any fun e =>
          e.student_id == ("S_" ++ sNo) && e.course_id == cid) = true
      then db.enrolments
      else db.enrolments ++ [{ student_id := "S_" ++ sNo, course_id := cid }] := by
  unfold upsertStudentAndEnrol
  by_cases hany : (db.students.any fun st => st.student_no == sNo) = true
  · simp only [hany, if_true]
    rw [find?_replaceAll db.students sNo
      { id := "S_" ++ sNo, student_no := sNo, surname_initials := name } (by simp) hany]
    simp only [Option.map_some', Option.getD_some]
    split
    · rfl
    · rfl
  · have hf : (db.students.any fun st => st.student_no == sNo) = false := by
      simpa using hany
    simp only [hf, Bool.false_eq_true, if_false]
    rw [find?_append_fresh db.students sNo
      { id := "S_" ++ sNo, student_no := sNo, surname_initials := name } (by simp) hf]
    simp only [Option.map_some', Option.getD_some]
    split
    · rfl
    · rfl

/-- The upsert touches neither scans nor sessions. -/
theorem upsert_scans_sessions_eq (db : Store) (sNo name cid : String) :
    (upsertStudentAndEnrol db sNo name cid).2.scans = db.scans ∧
    (upsertStudentAndEnrol db sNo name cid).2.sessions = db.sessions := by
  unfold upsertStudentAndEnrol
  by_cases hany : (db.students.any fun st => st.student_no == sNo) = true
  · simp only [hany, if_true]
    constructor
    · split
      · rfl
      · rfl
    · split
      · rfl
      · rfl
  · have hf : (db.students.any fun st => st.student_no == sNo) = false := by
      simpa using hany
    simp only [hf, Bool.false_eq_true, if_false]
    constructor
    · split
      · rfl
      · rfl
    · split
      · rfl
      · rfl

/-- C10: when every stored student id is canonical (S_ plus the
student number, the invariant the upsert itself maintains), upserting
an existing student number overwrites the stored surname/initials with
the new value, preserves the existing row id and returns it, enrols
that id in the course, creates no extra student row, and leaves the
scans table (the denormalized name snapshots) and sessions untouched. -/
theorem upsertStudentAndEnrol_spec (db : Store) (sNo name cid : String)
    (hinv : ∀ st ∈ db.students, st.id = "S_" ++ st.student_no) :
    (∀ st ∈ (upsertStudentAndEnrol db sNo name cid).2.students,
        st.student_no = sNo → st.surname_initials = name ∧ st.id = "S_" ++ sNo) ∧
    (∀ st ∈ db.students, st.student_no = sNo →
        st.id = (upsertStudentAndEnrol db sNo name cid).1.id) ∧
    (upsertStudentAndEnrol db sNo name cid).1.id = "S_" ++ sNo ∧
    (upsertStudentAndEnrol db sNo name cid).2.scans = db.scans ∧
    (upsertStudentAndEnrol db sNo name cid).2.sessions = db.sessions ∧
    (∃ e ∈ (upsertStudentAndEnrol db sNo name cid).2.enrolments,
        e.student_id = "S_" ++ sNo ∧ e.course_id = cid) ∧
    ((∃ st ∈ db.students, st.student_no = sNo) →
        (upsertStudentAndEnrol db sNo name cid).2.students.length
          = db.students.length) ∧
    (∀ st ∈ (upsertStudentAndEnrol db sNo name cid).2.students,
        st.id = "S_" ++ st.student_no) := by
  have hres := upsert_result db sNo name cid
  have hstu := upsert_students_eq db sNo name cid
  have henr := upsert_enrolments_eq db sNo name cid
  have hss := upsert_scans_sessions_eq db sNo name cid
  refine ⟨?_, ?_, ?_, hss.1, hss.2, ?_, ?_, ?_⟩
  · intro st hst hno
    rw [hstu] at hst
    by_cases hany : (db.students.any fun st => st.student_no == sNo) = true
    · rw [if_pos hany] at hst
      obtain ⟨t, ht, hft⟩ := List.mem_map.mp hst
      by_cases htm : (t.student_no == sNo) = true
      · rw [if_pos htm] at hft
        rw [← hft]
        exact ⟨rfl, rfl⟩
      · rw [if_neg htm] at hft
        rw [← hft] at hno
        exact absurd (by simp [hno]) htm
    · rw [if_neg hany] at hst
      rcases List.mem_append.mp hst with h | h
      · exact absurd (List.any_eq_true.mpr ⟨st, h, by simp [hno]⟩) hany
      · have hrow :
            st = { id := "S_" ++ sNo, student_no := sNo, surname_initials := name } := by
          simpa using h
        rw [hrow]
        exact ⟨rfl, rfl⟩
  · intro st hst hno
    rw [hres, hinv st hst, hno]
  · rw [hres]
  · rw [henr]
    by_cases hc : (db.enrolments.any fun e =>
        e.student_id == ("S_" ++ sNo) && e.course_id == cid) = true
    · rw [if_pos hc]
      obtain ⟨e, he, hpe⟩ := List.any_eq_true.mp hc
      simp only [Bool.and_eq_true, beq_iff_eq] at hpe
      exact ⟨e, he, hpe.1, hpe.2⟩
    · rw [if_neg hc]
      exact ⟨{ student_id := "S_" ++ sNo, course_id := cid }, by simp, rfl, rfl⟩
  · intro hex
    obtain ⟨st, hst, hno⟩ := hex
    have hany : (db.students.any fun st => st.student_no == sNo) = true :=
      List.any_eq_true.mpr ⟨st, hst, by simp [hno]⟩
    rw [hstu, if_pos hany, List.length_map]
  · intro st hst
    rw [hstu] at hst
    by_cases hany : (db.students.any fun st => st.student_no == sNo) = true
    · rw [if_pos hany] at hst
      obtain ⟨t, ht, hft⟩ := List.mem_map.mp hst
      by_cases htm : (t.student_no == sNo) = true
      · rw [if_pos htm] at hft
        rw [← hft]
      · rw [if_neg htm] at hft
        rw [← hft]
        exact hinv t ht
    · rw [if_neg hany] at hst
      rcases List.mem_append.mp hst with h | h
      · exact hinv st h
      · have hrow :
            st = { id := "S_" ++ sNo, student_no := sNo, surname_initials := name } := by
          simpa using h
        rw [hrow]

/-- C10 witness: re-upserting student 123 keeps the id, the scan
snapshots and the row count. -/
theorem upsertStudentAndEnrol_spec_witness :
    (upsertStudentAndEnrol dbU "123" "New K." "CRS1").1.id = "S_" ++ "123" ∧
    (upsertStudentAndEnrol dbU "123" "New K." "CRS1").2.scans = dbU.scans ∧
    (upsertStudentAndEnrol dbU "123" "New K." "CRS1").2.students.length
      = dbU.students.length :=
  ⟨(upsertStudentAndEnrol_spec dbU "123" "New K." "CRS1" (by decide)).2.2.1,
   (upsertStudentAndEnrol_spec dbU "123" "New K." "CRS1" (by decide)).2.2.2.1,
   (upsertStudentAndEnrol_spec dbU "123" "New K." "CRS1" (by decide)).2.2.2.2.2.2.1
     ⟨{ id := "S_123", student_no := "123", surname_initials := "Old K." },
       by decide, rfl⟩⟩
